import Mathlib

/-!
Shallow embedding of the `file-browser-3d` repository: the card layout
engine, the scroll navigation state machine, the drill-down/back navigator
with its navigation stack, the zoom control, and the server directory
listing endpoint.  Scroll positions, zoom factors and card coordinates are
JavaScript doubles in the source; all the constants involved are small
dyadic/decimal values on which double arithmetic is exact for the claims at
stake, so they are embedded as rationals (`ℚ`).
-/

namespace FileBrowser3D

/-- `FileBrowser3D.CARD_SPACING` (src/FileBrowser3D.ts). -/
def cardSpacing : ℚ := 3 / 2

/-- `FileBrowser3D.DIAGONAL_X_RATIO` (src/FileBrowser3D.ts). -/
def diagonalXRatio : ℚ := -(1 / 2)

/-- `FileBrowser3D.DIAGONAL_Y_RATIO` (src/FileBrowser3D.ts). -/
def diagonalYRatio : ℚ := -(1 / 2)

/-- `FileBrowser3D.DIAGONAL_Z_RATIO` (src/FileBrowser3D.ts). -/
def diagonalZRatio : ℚ := 1 / 10

/-- Distance of card `index` from the scroll center, as computed at the top
of `updateCardPositions`: `Math.abs(index - this.scrollPosition)`. -/
def distanceFromCenter (index scrollPosition : ℚ) : ℚ :=
  |index - scrollPosition|

/-- Card scale from `updateCardPositions`:
`1.0 + 0.15 * Math.max(0, 1 - distanceFromCenter)`. -/
def scale (index scrollPosition : ℚ) : ℚ :=
  1 + (15 / 100) * max 0 (1 - distanceFromCenter index scrollPosition)

/-- Card elevation from `updateCardPositions`:
`0.6 * Math.max(0, 1 - distanceFromCenter)`. -/
def elevation (index scrollPosition : ℚ) : ℚ :=
  (6 / 10) * max 0 (1 - distanceFromCenter index scrollPosition)

/-- The `centeredPosition` record computed by `updateCardPositions` (and
identically by `updateCardPositionsImmediate` and
`DropAndFanTransition.calculateDiagonalPositions`):
`x = (index - scrollPosition) * CARD_SPACING * DIAGONAL_X_RATIO`,
`y = -(index - scrollPosition) * CARD_SPACING * DIAGONAL_Y_RATIO + elevation`,
`z = -(index - scrollPosition) * CARD_SPACING * DIAGONAL_Z_RATIO`. -/
def centeredPosition (index scrollPosition : ℚ) : ℚ × ℚ × ℚ :=
  ((index - scrollPosition) * cardSpacing * diagonalXRatio,
   -(index - scrollPosition) * cardSpacing * diagonalYRatio
      + elevation index scrollPosition,
   -(index - scrollPosition) * cardSpacing * diagonalZRatio)

/-- The position formula claimed by the spec, transcribed literally:
`position = (index - scrollPosition) * spacing * (xRatio, yRatio, zRatio)
 + (0, elevation, 0)` componentwise. -/
def specClaimedPosition (index scrollPosition : ℚ) : ℚ × ℚ × ℚ :=
  ((index - scrollPosition) * cardSpacing * diagonalXRatio + 0,
   (index - scrollPosition) * cardSpacing * diagonalYRatio
      + elevation index scrollPosition,
   (index - scrollPosition) * cardSpacing * diagonalZRatio + 0)

/-- The amended position formula: the code negates the ratio product on the
y and z components, i.e. `position = (index - scrollPosition) * spacing *
(xRatio, -yRatio, -zRatio) + (0, elevation, 0)` componentwise. -/
def specAmendedPosition (index scrollPosition : ℚ) : ℚ × ℚ × ℚ :=
  ((index - scrollPosition) * cardSpacing * diagonalXRatio + 0,
   (index - scrollPosition) * cardSpacing * (-diagonalYRatio)
      + elevation index scrollPosition,
   (index - scrollPosition) * cardSpacing * (-diagonalZRatio) + 0)

end FileBrowser3D

namespace ZoomControls

/-- `ZoomControls.MIN_ZOOM` (src/ZoomControls.ts). -/
def minZoom : ℚ := 7 / 10

/-- `ZoomControls.MAX_ZOOM` (src/ZoomControls.ts). -/
def maxZoom : ℚ := 3 / 2

/-- The target zoom computed by `ZoomControls.setZoom`: the requested value
is clamped to `[MIN_ZOOM, MAX_ZOOM]` and then snapped to `1.0` when the
clamped value is strictly within `0.05` of `1.0`; the subsequent gsap tween
settles `currentZoom` at exactly this value. -/
def setZoom (targetZoom : ℚ) : ℚ :=
  let clamped := max minZoom (min maxZoom targetZoom)
  if |clamped - 1| < 5 / 100 then 1 else clamped

end ZoomControls

namespace FileBrowser3D

/-- The `type` field of a `FileItem`: `'file' | 'folder'`. -/
inductive EntryKind : Type
  | file : EntryKind
  | folder : EntryKind
deriving DecidableEq, Repr

/-- `FileItem` (src/FileBrowser3D.ts): `{ name, type, size?, path }`.  The
source field `type` is embedded as `kind`; the optional `children?` field is
vestigial (never read by the final code) and omitted. -/
structure FileItem where
  name : String
  kind : EntryKind
  size : Option Nat
  path : String
deriving DecidableEq, Repr

/-- The initial transform `CardGeometry.createCard` gives a card:
`diagonalOffset = index * CARD_SPACING` and
`position = (offset * xRatio, -offset * yRatio, -offset * zRatio)`. -/
def initialCardPosition (index : Nat) : ℚ × ℚ × ℚ :=
  let diagonalOffset : ℚ := (index : ℚ) * cardSpacing
  (diagonalOffset * diagonalXRatio, -diagonalOffset * diagonalYRatio,
   -diagonalOffset * diagonalZRatio)

/-- A card as built by `FileBrowser3D.createCard`: bound 1:1 to its
`FileItem` by array index, carrying the transform (translation and uniform
scale) later driven by `updateCardPositions`. -/
structure Card where
  item : FileItem
  index : Nat
  position : ℚ × ℚ × ℚ
  scaleFactor : ℚ
deriving DecidableEq, Repr

/-- `createCard(fileItem, index)`: a fresh card at the initial diagonal
offset for its index, with unit scale. -/
def createCard (fileItem : FileItem) (index : Nat) : Card :=
  ⟨fileItem, index, initialCardPosition index, 1⟩

/-- The card list built by the `fileData.forEach((item, index) =>
createCard(item, index))` loops. -/
def buildCards (fileData : List FileItem) : List Card :=
  fileData.enum.map fun p => createCard p.2 p.1

/-- The view state owned by `FileBrowser3D` (second, final revision of
src/FileBrowser3D.ts): the live listing, the navigation stack (top of the
JS array = head here), the card set, the continuous scroll position, and the
animation flags.  `animTarget` models `isAnimating` together with the target
of the in-flight gsap scroll tween (`isAnimating = animTarget.isSome`);
`inputAnimating` models `InputHandlers.isAnimating`; `transitionAnimating`
models `AnimationManager.isAnimating()`. -/
structure BrowserState where
  currentDirectory : List FileItem
  navigationStack : List (List FileItem)
  cards : List Card
  scrollPosition : ℚ
  animTarget : Option ℚ
  inputAnimating : Bool
  transitionAnimating : Bool
deriving DecidableEq, Repr

/-- `updateCardPositions`: every card's settled transform is the layout
engine's output for its index at the current scroll position. -/
def updateCardPositions (s : BrowserState) : BrowserState :=
  { s with cards := s.cards.map fun c =>
      { c with position := centeredPosition (c.index : ℚ) s.scrollPosition,
               scaleFactor := scale (c.index : ℚ) s.scrollPosition } }

/-- `createCardsFromData(fileData)`: discard the old cards, create one card
per entry, reset `scrollPosition` to 0 and update the card transforms. -/
def createCardsFromData (fileData : List FileItem) (s : BrowserState) :
    BrowserState :=
  updateCardPositions
    { s with cards := buildCards fileData, scrollPosition := 0 }

/-- `navigateCards(direction)`: no-op while a scroll tween or an
input-handler animation is in flight; otherwise cancel (vacuously, given the
guard) any other animation, clamp `scrollPosition + direction` to
`[0, cards.length - 1]`, no-op if the clamp equals the current position, and
otherwise start a tween toward the new position. -/
def navigateCards (s : BrowserState) (direction : ℚ) : BrowserState :=
  if s.animTarget.isSome || s.inputAnimating then s
  else
    let s := { s with inputAnimating := false }
    let newScrollPosition : ℚ :=
      max 0 (min ((s.cards.length : ℚ) - 1) (s.scrollPosition + direction))
    if newScrollPosition = s.scrollPosition then s
    else { s with animTarget := some newScrollPosition }

/-- Completion of the in-flight gsap scroll tween: `scrollPosition` settles
at the tween's target and `onComplete` clears `isAnimating`. -/
def settleScroll (s : BrowserState) : BrowserState :=
  match s.animTarget with
  | some t => { s with scrollPosition := t, animTarget := none }
  | none => s

/-- The settled effect of `DropAndFanTransition` on the new cards: phase 3
moves them to `calculateDiagonalPositions(count, 0)` — the layout engine's
positions for scroll position 0 — and the final tween scales them to 1. -/
def dropAndFanFinal (cards : List Card) : List Card :=
  cards.map fun c =>
    { c with position := centeredPosition (c.index : ℚ) 0, scaleFactor := 1 }

/-- `navigateToFolder(folder, newContents, selectedCardIndex)`: push a
spread-copy of the current listing onto the navigation stack, build the new
cards, run the drop-and-fan transition, then replace the card set and the
live listing and reset `scrollPosition` to 0. -/
def navigateToFolder (s : BrowserState) (_folder : FileItem)
    (newContents : List FileItem) (_selectedCardIndex : Nat) : BrowserState :=
  { s with
    navigationStack := s.currentDirectory :: s.navigationStack,
    cards := dropAndFanFinal (buildCards newContents),
    currentDirectory := newContents,
    scrollPosition := 0 }

/-- `navigateBack()`: return immediately when the navigation stack is empty
or a drill-down transition is running; otherwise pop the most recent
listing, rebuild the cards from it (which resets `scrollPosition` to 0) and
install it as the live listing. -/
def navigateBack (s : BrowserState) : BrowserState :=
  match s.navigationStack with
  | [] => s
  | prev :: rest =>
    if s.transitionAnimating then s
    else
      let s1 := createCardsFromData prev { s with navigationStack := rest }
      { s1 with currentDirectory := prev }

/-- A concrete three-entry listing (the spec's `[A(folder), B(folder),
C(file)]` example) used as the sample start state. -/
def sampleItems : List FileItem :=
  [⟨"A", .folder, none, "/A"⟩, ⟨"B", .folder, none, "/B"⟩,
   ⟨"C", .file, some 1024, "/C"⟩]

/-- A settled view of `sampleItems`: no animation in flight, empty
navigation stack, scroll at 0. -/
def sampleState : BrowserState :=
  { currentDirectory := sampleItems,
    navigationStack := [],
    cards := buildCards sampleItems,
    scrollPosition := 0,
    animTarget := none,
    inputAnimating := false,
    transitionAnimating := false }

end FileBrowser3D

namespace FileBrowser3D

/-- C1: for every card index and scroll position, `scale` lies in
`[1.0, 1.15]` and `elevation` in `[0, 0.6]`; both are monotonically
non-increasing in the distance `|index - scrollPosition|`; the scale peaks
at `1.15` when `index = scrollPosition`, equals `1.0` one card away, and is
floored at `1.0` at any distance of one or more. -/
theorem scale_elevation_bounds_mono (i s i' s' : ℚ)
    (hd : distanceFromCenter i s ≤ distanceFromCenter i' s') :
    (1 ≤ scale i s ∧ scale i s ≤ 115 / 100) ∧
    (0 ≤ elevation i s ∧ elevation i s ≤ 6 / 10) ∧
    scale i' s' ≤ scale i s ∧ elevation i' s' ≤ elevation i s ∧
    scale i i = 115 / 100 ∧
    (distanceFromCenter i s = 1 → scale i s = 1) ∧
    (1 ≤ distanceFromCenter i s → scale i s = 1 ∧ elevation i s = 0) := by
  have habs : ∀ a b : ℚ, 0 ≤ distanceFromCenter a b := fun a b => abs_nonneg _
  have hmax_le_one : ∀ a b : ℚ, max 0 (1 - distanceFromCenter a b) ≤ 1 := by
    intro a b
    have h0 := habs a b
    have : 1 - distanceFromCenter a b ≤ 1 := by linarith
    exact max_le (by norm_num) this
  have hmax_nonneg : ∀ a b : ℚ, 0 ≤ max 0 (1 - distanceFromCenter a b) :=
    fun a b => le_max_left 0 _
  have hmono : max 0 (1 - distanceFromCenter i' s') ≤
      max 0 (1 - distanceFromCenter i s) := by
    apply max_le (le_max_left 0 _)
    have : 1 - distanceFromCenter i' s' ≤ 1 - distanceFromCenter i s := by
      linarith
    exact le_trans this (le_max_right 0 _)
  refine ⟨⟨?_, ?_⟩, ⟨?_, ?_⟩, ?_, ?_, ?_, ?_, ?_⟩
  · have := hmax_nonneg i s; unfold scale; nlinarith
  · have := hmax_le_one i s; unfold scale; nlinarith
  · have := hmax_nonneg i s; unfold elevation; nlinarith
  · have := hmax_le_one i s; unfold elevation; nlinarith
  · unfold scale; nlinarith
  · unfold elevation; nlinarith
  · unfold scale distanceFromCenter
    simp
    norm_num
  · intro h1
    unfold scale
    rw [h1]
    norm_num
  · intro h1
    constructor
    · unfold scale
      have : max 0 (1 - distanceFromCenter i s) = 0 :=
        max_eq_left (by linarith)
      rw [this]; ring
    · unfold elevation
      have : max 0 (1 - distanceFromCenter i s) = 0 :=
        max_eq_left (by linarith)
      rw [this]; ring

/-- Witness for `scale_elevation_bounds_mono` at `i = 2, s = 2, i' = 4,
s' = 1` (distances `0 ≤ 3`). -/
theorem scale_elevation_bounds_mono_witness :
    (1 ≤ scale 2 2 ∧ scale 2 2 ≤ 115 / 100) ∧
    (0 ≤ elevation 2 2 ∧ elevation 2 2 ≤ 6 / 10) ∧
    scale 4 1 ≤ scale 2 2 ∧ elevation 4 1 ≤ elevation 2 2 ∧
    scale 2 2 = 115 / 100 ∧
    (distanceFromCenter 2 2 = 1 → scale 2 2 = 1) ∧
    (1 ≤ distanceFromCenter 2 2 → scale 2 2 = 1 ∧ elevation 2 2 = 0) :=
  scale_elevation_bounds_mono 2 2 4 1 (by norm_num [distanceFromCenter])

/-- C5 counterexample: at `index = 1`, `scrollPosition = 0`, the code's
card position differs from the spec's claimed formula — the code yields
`y = 0.75` and `z = -0.15` where the claimed formula gives `y = -0.75` and
`z = 0.15`. -/
theorem centeredPosition_ne_specClaimedPosition :
    centeredPosition 1 0 ≠ specClaimedPosition 1 0 ∧
    centeredPosition 1 0 = (-(3 / 4), 3 / 4, -(3 / 20)) ∧
    specClaimedPosition 1 0 = (-(3 / 4), -(3 / 4), 3 / 20) := by
  refine ⟨?_, ?_, ?_⟩ <;>
    simp only [centeredPosition, specClaimedPosition, elevation,
      distanceFromCenter, cardSpacing, diagonalXRatio, diagonalYRatio,
      diagonalZRatio, Prod.ext_iff, Prod.mk.injEq, ne_eq] <;>
    norm_num

/-- C5 amended: the code's output position equals
`(index - scrollPosition) * spacing * (xRatio, -yRatio, -zRatio)
 + (0, elevation, 0)` componentwise — the y and z components negate the
ratio product — with `spacing = 1.5`, `xRatio = yRatio = -0.5`
(both negative) and `zRatio = 0.1`; the x component does agree with the
spec's original formula. -/
theorem centeredPosition_eq_specAmendedPosition (i s : ℚ) :
    centeredPosition i s = specAmendedPosition i s ∧
    (centeredPosition i s).1 = (specClaimedPosition i s).1 ∧
    cardSpacing = 3 / 2 ∧ diagonalXRatio < 0 ∧ diagonalYRatio < 0 ∧
    diagonalXRatio = -(1 / 2) ∧ diagonalYRatio = -(1 / 2) ∧
    diagonalZRatio = 1 / 10 := by
  refine ⟨?_, ?_, by norm_num [cardSpacing], by norm_num [diagonalXRatio],
    by norm_num [diagonalYRatio], by norm_num [diagonalXRatio],
    by norm_num [diagonalYRatio], by norm_num [diagonalZRatio]⟩
  · unfold centeredPosition specAmendedPosition
    refine Prod.ext ?_ (Prod.ext ?_ ?_) <;> simp <;> ring
  · unfold centeredPosition specClaimedPosition
    simp

end FileBrowser3D

namespace ZoomControls

/-- C10: `setZoom` clamps the request to `[0.7, 1.5]` and snaps to exactly
`1.0` whenever the clamped value is strictly within `0.05` of `1.0`; hence
the settled zoom is always in `[0.7, 1.5]` and never takes a value in the
open interval `(0.95, 1.05)` other than exactly `1.0`. -/
theorem setZoom_clamps_and_snaps (z : ℚ) :
    minZoom ≤ setZoom z ∧ setZoom z ≤ maxZoom ∧
    (19 / 20 < setZoom z → setZoom z < 21 / 20 → setZoom z = 1) ∧
    (|max minZoom (min maxZoom z) - 1| < 5 / 100 → setZoom z = 1) ∧
    (5 / 100 ≤ |max minZoom (min maxZoom z) - 1| →
      setZoom z = max minZoom (min maxZoom z)) := by
  set c : ℚ := max minZoom (min maxZoom z) with hc
  have hlo : minZoom ≤ c := le_max_left _ _
  have hhi : c ≤ maxZoom := max_le (by norm_num [minZoom, maxZoom]) (min_le_left _ _)
  unfold setZoom
  rw [← hc]
  by_cases h : |c - 1| < 5 / 100
  · rw [if_pos h]
    refine ⟨by norm_num [minZoom], by norm_num [maxZoom], fun _ _ => rfl,
      fun _ => rfl, fun hge => absurd h (not_lt.mpr hge)⟩
  · rw [if_neg h]
    have h' : 5 / 100 ≤ |c - 1| := not_lt.mp h
    have hd : 5 / 100 ≤ c - 1 ∨ 5 / 100 ≤ -(c - 1) := le_abs.mp h'
    refine ⟨hlo, hhi, ?_, fun hlt => absurd hlt h, fun _ => rfl⟩
    intro h1 h2
    rcases hd with hd | hd <;> [linarith; linarith]

end ZoomControls

namespace FileBrowser3D

/-- C2: drilling into a folder at index `k` of the live listing and then
back-navigating restores exactly the pre-drill listing (same entries, same
order) as the current listing, resets `scrollPosition` to 0 (not to `k`),
and restores the navigation stack. -/
theorem navigate_drill_back_roundtrip (s : BrowserState) (folder : FileItem)
    (newContents : List FileItem) (k : Nat)
    (hanim : s.transitionAnimating = false)
    (hk : s.currentDirectory[k]? = some folder)
    (hfolder : folder.kind = .folder) :
    (navigateBack (navigateToFolder s folder newContents k)).currentDirectory
      = s.currentDirectory ∧
    (navigateBack (navigateToFolder s folder newContents k)).scrollPosition
      = 0 ∧
    (navigateBack (navigateToFolder s folder newContents k)).navigationStack
      = s.navigationStack := by
  unfold navigateBack navigateToFolder
  simp [hanim, createCardsFromData, updateCardPositions]

/-- Witness for `navigate_drill_back_roundtrip` at the sample state,
drilling into folder `B` at index 1. -/
theorem navigate_drill_back_roundtrip_witness :
    (navigateBack (navigateToFolder sampleState ⟨"B", .folder, none, "/B"⟩
        [⟨"..", .folder, none, "../"⟩, ⟨"D", .file, some 7, "/B/D"⟩] 1)
      ).currentDirectory = sampleState.currentDirectory ∧
    (navigateBack (navigateToFolder sampleState ⟨"B", .folder, none, "/B"⟩
        [⟨"..", .folder, none, "../"⟩, ⟨"D", .file, some 7, "/B/D"⟩] 1)
      ).scrollPosition = 0 ∧
    (navigateBack (navigateToFolder sampleState ⟨"B", .folder, none, "/B"⟩
        [⟨"..", .folder, none, "../"⟩, ⟨"D", .file, some 7, "/B/D"⟩] 1)
      ).navigationStack = sampleState.navigationStack :=
  navigate_drill_back_roundtrip sampleState ⟨"B", .folder, none, "/B"⟩
    [⟨"..", .folder, none, "../"⟩, ⟨"D", .file, some 7, "/B/D"⟩] 1
    rfl (by simp [sampleState, sampleItems]) rfl

/-- C3 counterexample: from the sample state (3 cards, scroll 0), a first
`navigateCards 1` starts a tween toward target `t1 = 1`; a second
`navigateCards 1` issued while that tween is in flight (second target `t2`
would be 2) is rejected outright — it does not cancel the first tween — and
the settled `scrollPosition` is `t1 = 1`, not `t2 = 2`. -/
theorem second_advance_not_cancelling :
    (navigateCards sampleState 1).animTarget = some 1 ∧
    navigateCards (navigateCards sampleState 1) 1
      = navigateCards sampleState 1 ∧
    (settleScroll (navigateCards (navigateCards sampleState 1) 1)
      ).scrollPosition = 1 ∧
    (1 : ℚ) ≠ 2 := by
  have h1 : navigateCards sampleState 1
      = { sampleState with animTarget := some 1 } := by
    unfold navigateCards
    norm_num [sampleState, sampleItems, buildCards]
  refine ⟨by rw [h1], ?_, ?_, by norm_num⟩
  · rw [h1]
    unfold navigateCards
    simp
  · rw [h1]
    unfold navigateCards
    simp [settleScroll]

/-- C3 amended: a second `advance` issued while a scroll animation toward
`t1` is in flight is rejected by the `isAnimating` guard as a complete
no-op — it does not cancel the first animation and does not retarget it —
so the final settled `scrollPosition` equals `t1`, the first call's clamped
target, regardless of the second call's direction. -/
theorem navigateCards_noop_while_animating (s : BrowserState) (t1 d : ℚ)
    (h : s.animTarget = some t1) :
    navigateCards s d = s ∧
    (settleScroll (navigateCards s d)).scrollPosition = t1 := by
  have hs : s.animTarget.isSome = true := by rw [h]; rfl
  constructor
  · unfold navigateCards
    simp [hs]
  · unfold navigateCards
    simp [hs, settleScroll, h]

/-- Witness for `navigateCards_noop_while_animating`: the sample state mid
first advance (tween target 1), second advance `+1`. -/
theorem navigateCards_noop_while_animating_witness :
    navigateCards { sampleState with animTarget := some 1 } 1
      = { sampleState with animTarget := some 1 } ∧
    (settleScroll
      (navigateCards { sampleState with animTarget := some 1 } 1)
      ).scrollPosition = 1 :=
  navigateCards_noop_while_animating
    { sampleState with animTarget := some 1 } 1 1 rfl

/-- C9: when the navigation stack is empty, `navigateBack` is a complete
no-op: the whole view state — current listing, cards, stack and scroll
position — is returned unchanged. -/
theorem navigateBack_noop_on_empty_stack (s : BrowserState)
    (h : s.navigationStack = []) : navigateBack s = s := by
  unfold navigateBack
  rw [h]

/-- Witness for `navigateBack_noop_on_empty_stack` at the sample state. -/
theorem navigateBack_noop_on_empty_stack_witness :
    navigateBack sampleState = sampleState :=
  navigateBack_noop_on_empty_stack sampleState rfl

end FileBrowser3D

namespace FileBrowser3D

/-- Reference-semantics view of the listing and navigation stack, used to
settle what `navigationStack.push([...this.currentDirectory])` copies.  JS
objects live on a heap; the listing and every stacked frame are arrays of
references into it. -/
structure RefState where
  store : Nat → FileItem
  currentDirectory : List Nat
  navigationStack : List (List Nat)

/-- `this.navigationStack.push([...this.currentDirectory])`: the spread
operator copies the array of references, not the `FileItem` objects it
points to. -/
def pushCurrentDirectory (s : RefState) : RefState :=
  { s with navigationStack := s.currentDirectory :: s.navigationStack }

/-- Replace the live listing array (as `this.currentDirectory = ...` or any
insertion/removal/reorder producing a new array of references does). -/
def setCurrentDirectory (s : RefState) (l : List Nat) : RefState :=
  { s with currentDirectory := l }

/-- Mutate the `name` field of the `FileItem` object behind reference `r`
(as `item.name = newName` on a live entry would). -/
def setEntryName (s : RefState) (r : Nat) (newName : String) : RefState :=
  { s with store := fun x =>
      if x = r then { s.store x with name := newName } else s.store x }

/-- The observable value of a stacked frame: each reference dereferenced. -/
def snapshotValue (s : RefState) (frame : List Nat) : List FileItem :=
  frame.map s.store

/-- A one-entry heap state for the C4 counterexample: the live listing is
`[ref 0]` pointing at folder `A`. -/
def sampleRefState : RefState :=
  { store := fun _ => ⟨"A", .folder, none, "/A"⟩,
    currentDirectory := [0],
    navigationStack := [] }

/-- C4 counterexample: pushing the live listing `[A(folder)]` stacks the
frame `[0]`; mutating the live entry's `name` to `"B"` afterwards changes
the observable value of that stacked frame from `[A…]` to `[B…]` — the
snapshot is not frozen, because the spread copy shares the entry objects. -/
theorem stacked_snapshot_mutated_by_entry_mutation :
    (pushCurrentDirectory sampleRefState).navigationStack = [[0]] ∧
    snapshotValue (pushCurrentDirectory sampleRefState) [0]
      = [⟨"A", .folder, none, "/A"⟩] ∧
    snapshotValue
        (setEntryName (pushCurrentDirectory sampleRefState) 0 "B") [0]
      = [⟨"B", .folder, none, "/A"⟩] ∧
    snapshotValue
        (setEntryName (pushCurrentDirectory sampleRefState) 0 "B") [0]
      ≠ snapshotValue (pushCurrentDirectory sampleRefState) [0] := by
  refine ⟨rfl, rfl, rfl, ?_⟩
  intro h
  simp [snapshotValue, setEntryName, pushCurrentDirectory,
    sampleRefState] at h

/-- C4 amended: the pushed snapshot is a shallow copy.  Mutations at the
array level — replacing, reordering, inserting or removing entries of the
live listing — leave every stacked frame and its observable value
unchanged; but the `FileItem` objects are shared by reference, so mutating
a field of an entry reachable from a stacked frame changes that frame's
observable value. -/
theorem pushCurrentDirectory_shallow_copy (s : RefState) (l : List Nat)
    (r : Nat) (n : String) (frame : List Nat)
    (hf : frame ∈ (pushCurrentDirectory s).navigationStack) :
    snapshotValue (setCurrentDirectory (pushCurrentDirectory s) l) frame
      = snapshotValue (pushCurrentDirectory s) frame ∧
    (setCurrentDirectory (pushCurrentDirectory s) l).navigationStack
      = (pushCurrentDirectory s).navigationStack ∧
    (r ∈ frame → n ≠ (s.store r).name →
      snapshotValue (setEntryName (pushCurrentDirectory s) r n) frame
        ≠ snapshotValue (pushCurrentDirectory s) frame) := by
  refine ⟨rfl, rfl, ?_⟩
  intro hr hn heq
  rw [snapshotValue, snapshotValue, List.map_eq_map_iff] at heq
  have := heq r hr
  simp only [setEntryName, pushCurrentDirectory, if_pos rfl] at this
  apply hn
  have hname := congrArg FileItem.name this
  simpa using hname

/-- Witness for `pushCurrentDirectory_shallow_copy` at the sample heap
state, with the stacked frame `[0]`, a cleared live listing, and a rename
of entry 0 to `"B"`. -/
theorem pushCurrentDirectory_shallow_copy_witness :
    snapshotValue
        (setCurrentDirectory (pushCurrentDirectory sampleRefState) []) [0]
      = snapshotValue (pushCurrentDirectory sampleRefState) [0] ∧
    (setCurrentDirectory (pushCurrentDirectory sampleRefState) []
      ).navigationStack = (pushCurrentDirectory sampleRefState
      ).navigationStack ∧
    ((0 : Nat) ∈ [(0 : Nat)] → "B" ≠ (sampleRefState.store 0).name →
      snapshotValue
          (setEntryName (pushCurrentDirectory sampleRefState) 0 "B") [0]
        ≠ snapshotValue (pushCurrentDirectory sampleRefState) [0]) :=
  pushCurrentDirectory_shallow_copy sampleRefState [] 0 "B" [0]
    (by simp [pushCurrentDirectory, sampleRefState])

end FileBrowser3D

namespace FilesystemApi

open FileBrowser3D (EntryKind FileItem)

/-- `sub.isPrefixOf l`-style check used to model `String.prototype.includes`:
`listHasInfix haystack needle` is true when `needle` occurs contiguously in
`haystack`. -/
def listHasInfix (haystack needle : List Char) : Bool :=
  match haystack with
  | [] => needle.isEmpty
  | _ :: rest => needle.isPrefixOf haystack || listHasInfix rest needle

/-- Model of JavaScript `path.includes(sub)` on the characters. -/
def strIncludes (s sub : String) : Bool :=
  listHasInfix s.data sub.data

/-- Model of `name.startsWith('.')`: the first character is a dot. -/
def startsWithDot (s : String) : Bool :=
  match s.data with
  | [] => false
  | c :: _ => c = '.'

/-- Accumulated value of a run of decimal digits. -/
def digitRunVal (acc : Nat) (c : Char) : Nat :=
  acc * 10 + (c.toNat - 48)

/-- Collation key builder: digit runs become a `0, value` pair (numbers
compare numerically and sort before letters), every other character becomes
a `1, lowercased code point` pair.  The optional accumulator carries the
value of the digit run currently being read. -/
def nameKeyAux : Option Nat → List Char → List Nat
  | some n, [] => [0, n]
  | none, [] => []
  | acc, c :: cs =>
    if c.isDigit then nameKeyAux (some (digitRunVal (acc.getD 0) c)) cs
    else
      match acc with
      | some n => 0 :: n :: 1 :: c.toLower.toNat :: nameKeyAux none cs
      | none => 1 :: c.toLower.toNat :: nameKeyAux none cs

/-- Collation key of a name. -/
def nameKey (s : String) : List Nat :=
  nameKeyAux none s.data

/-- Lexicographic comparison of collation keys, shorter-list-first on
exhaustion. -/
def natListLe : List Nat → List Nat → Bool
  | [], _ => true
  | _ :: _, [] => false
  | a :: as, b :: bs =>
    if a < b then true else if b < a then false else natListLe as bs

/-- Model of `a.localeCompare(b, undefined, { numeric: true }) <= 0` for
ASCII names: case-insensitive, digit runs compared as numbers. -/
def nameLe (a b : String) : Bool :=
  natListLe (nameKey a) (nameKey b)

theorem natListLe_total : ∀ x y : List Nat,
    natListLe x y = true ∨ natListLe y x = true
  | [], _ => Or.inl rfl
  | _ :: _, [] => Or.inr rfl
  | a :: as, b :: bs => by
    by_cases h1 : a < b
    · left
      simp [natListLe, h1]
    · by_cases h2 : b < a
      · right
        simp [natListLe, h1, h2]
      · have hab : a = b := Nat.le_antisymm (Nat.not_lt.mp h2) (Nat.not_lt.mp h1)
        rcases natListLe_total as bs with h | h
        · left
          simp [natListLe, h1, h2, h]
        · right
          subst hab
          simp [natListLe, h1, h2, h]

theorem natListLe_cons (a b : Nat) (as bs : List Nat) :
    natListLe (a :: as) (b :: bs)
      = if a < b then true else if b < a then false else natListLe as bs :=
  rfl

theorem natListLe_trans : ∀ x y z : List Nat,
    natListLe x y = true → natListLe y z = true → natListLe x z = true
  | [], _, _ => by intro _ _; rfl
  | _ :: _, [], _ => by intro h _; simp [natListLe] at h
  | _ :: _, _ :: _, [] => by intro _ h; simp [natListLe] at h
  | a :: as, b :: bs, c :: cs => by
    intro h1 h2
    rcases Nat.lt_trichotomy a b with hab | hab | hab
    · rcases Nat.lt_trichotomy b c with hbc | hbc | hbc
      · rw [natListLe_cons, if_pos (Nat.lt_trans hab hbc)]
      · subst hbc
        rw [natListLe_cons, if_pos hab]
      · rw [natListLe_cons, if_neg (Nat.lt_asymm hbc), if_pos hbc] at h2
        exact absurd h2 (by simp)
    · subst hab
      rw [natListLe_cons, if_neg (lt_irrefl a), if_neg (lt_irrefl a)] at h1
      rcases Nat.lt_trichotomy a c with hac | hac | hac
      · rw [natListLe_cons, if_pos hac]
      · subst hac
        rw [natListLe_cons, if_neg (lt_irrefl a), if_neg (lt_irrefl a)]
          at h2 ⊢
        exact natListLe_trans as bs cs h1 h2
      · rw [natListLe_cons, if_neg (Nat.lt_asymm hac), if_pos hac] at h2
        exact absurd h2 (by simp)
    · rw [natListLe_cons, if_neg (Nat.lt_asymm hab), if_pos hab] at h1
      exact absurd h1 (by simp)

end FilesystemApi

namespace FilesystemApi

open FileBrowser3D (EntryKind FileItem)

/-- A raw `readdir(..., { withFileTypes: true })` entry together with its
`stat` outcome: `isDirectory`/`isFile` from the dirent, `size` and `mtime`
(as an ISO string) from `stat`, and `statOk = false` when `stat` threw (the
loop then skips the entry). -/
structure DirEntry where
  name : String
  isDirectory : Bool
  isFile : Bool
  size : Nat
  mtime : String
  statOk : Bool
deriving DecidableEq, Repr

/-- One element of the `items` array produced by the `/api/fs/list`
endpoint: `{ name, type, size?, path, modified }` (`type` embedded as
`kind`). -/
structure ServerItem where
  name : String
  kind : EntryKind
  size : Option Nat
  path : String
  modified : String
deriving DecidableEq, Repr

/-- The object pushed for each surviving entry:
`type = isDirectory ? 'folder' : 'file'`,
`size = isFile ? stats.size : undefined`, `path = join(safePath, name)`
(modelled as slash concatenation), `modified = stats.mtime`. -/
def toServerItem (safePath : String) (e : DirEntry) : ServerItem :=
  { name := e.name,
    kind := if e.isDirectory then .folder else .file,
    size := if e.isFile then some e.size else none,
    path := safePath ++ "/" ++ e.name,
    modified := e.mtime }

/-- The `fileItems.sort` comparator as a boolean "compares ≤ 0":
`if (a.type !== b.type) return a.type === 'folder' ? -1 : 1;`
then `a.name.localeCompare(b.name, undefined, { numeric: true })`. -/
def itemLe (a b : ServerItem) : Bool :=
  match a.kind, b.kind with
  | .folder, .file => true
  | .file, .folder => false
  | _, _ => nameLe a.name b.name

/-- `itemLe` as a decidable relation, for the sort. -/
def itemRel (a b : ServerItem) : Prop := itemLe a b = true

instance : DecidableRel itemRel := fun a b =>
  inferInstanceAs (Decidable (itemLe a b = true))

/-- `itemLe` is the key comparison `kindRank :: nameKey`, where folders rank
0 and files rank 1. -/
def sortKey (it : ServerItem) : List Nat :=
  (match it.kind with | .folder => 0 | .file => 1) :: nameKey it.name

theorem itemLe_eq_natListLe (a b : ServerItem) :
    itemLe a b = natListLe (sortKey a) (sortKey b) := by
  cases ha : a.kind <;> cases hb : b.kind <;>
    simp [itemLe, sortKey, nameLe, natListLe_cons, ha, hb]

instance : IsTotal ServerItem itemRel where
  total a b := by
    unfold itemRel
    rw [itemLe_eq_natListLe, itemLe_eq_natListLe]
    exact natListLe_total _ _

instance : IsTrans ServerItem itemRel where
  trans a b c hab hbc := by
    unfold itemRel at *
    rw [itemLe_eq_natListLe] at *
    exact natListLe_trans _ _ _ hab hbc

/-- The `/api/fs/list` happy path on a successfully read directory: skip
hidden entries (`name.startsWith('.')`) and entries whose `stat` failed,
build the items, and sort them with the folders-first, locale-name
comparator (`Array.prototype.sort` is stable; modelled by a stable
insertion sort). -/
def filesystemApiList (safePath : String) (entries : List DirEntry) :
    List ServerItem :=
  List.insertionSort itemRel
    ((entries.filter fun e => !startsWithDot e.name && e.statOk).map
      (toServerItem safePath))

/-- The raw directory of the spec's example: `[README.md, .git, src]`. -/
def exampleRawDir : List DirEntry :=
  [⟨"README.md", false, true, 1024, "m1", true⟩,
   ⟨".git", true, false, 0, "m2", true⟩,
   ⟨"src", true, false, 0, "m3", true⟩]

end FilesystemApi

namespace FilesystemApi

open FileBrowser3D (EntryKind)

/-- C6: for every raw directory, the produced item sequence excludes every
entry whose name starts with `'.'`; the output is sorted by the comparator
(folders before files, case-insensitive numeric-aware name order within
each group), so no file ever precedes a folder; and the raw directory
`[README.md, .git, src]` yields exactly `[src(folder), README.md(file)]`. -/
theorem filesystemApiList_spec (safePath : String)
    (entries : List DirEntry) :
    (∀ it ∈ filesystemApiList safePath entries,
      startsWithDot it.name = false) ∧
    (filesystemApiList safePath entries).Sorted itemRel ∧
    (filesystemApiList safePath entries).Pairwise
      (fun a b => ¬(a.kind = .file ∧ b.kind = .folder)) ∧
    filesystemApiList "/repo" exampleRawDir
      = [⟨"src", .folder, none, "/repo/src", "m3"⟩,
         ⟨"README.md", .file, some 1024, "/repo/README.md", "m1"⟩] := by
  refine ⟨?_, List.sorted_insertionSort itemRel _, ?_, by decide⟩
  · intro it hit
    rw [filesystemApiList, List.mem_insertionSort] at hit
    obtain ⟨e, he, rfl⟩ := List.mem_map.mp hit
    have h2 := (List.mem_filter.mp he).2
    simp only [Bool.and_eq_true, Bool.not_eq_true'] at h2
    exact h2.1
  · refine List.Pairwise.imp ?_ (List.sorted_insertionSort itemRel _)
    intro a b hab hcontra
    obtain ⟨hfa, hfb⟩ := hcontra
    rw [itemRel] at hab
    simp [itemLe, hfa, hfb] at hab

/-- Witness for `filesystemApiList_spec` at the example raw directory. -/
theorem filesystemApiList_spec_witness :
    (∀ it ∈ filesystemApiList "/repo" exampleRawDir,
      startsWithDot it.name = false) ∧
    (filesystemApiList "/repo" exampleRawDir).Sorted itemRel ∧
    (filesystemApiList "/repo" exampleRawDir).Pairwise
      (fun a b => ¬(a.kind = .file ∧ b.kind = .folder)) ∧
    filesystemApiList "/repo" exampleRawDir
      = [⟨"src", .folder, none, "/repo/src", "m3"⟩,
         ⟨"README.md", .file, some 1024, "/repo/README.md", "m1"⟩] :=
  filesystemApiList_spec "/repo" exampleRawDir

end FilesystemApi

namespace FilesystemApi

/-- Node error codes distinguished by the endpoint's error handler. -/
inductive ErrCode : Type
  | EACCES : ErrCode
  | EPERM : ErrCode
  | ENOENT : ErrCode
  | other : String → ErrCode
deriving DecidableEq, Repr

/-- The error thrown by `readdir`/`stat`: its Node `code` and `message`. -/
structure FsError where
  code : ErrCode
  message : String
deriving DecidableEq, Repr

/-- The JSON string of an `ErrCode` (the response's `code` field). -/
def errCodeStr : ErrCode → String
  | .EACCES => "EACCES"
  | .EPERM => "EPERM"
  | .ENOENT => "ENOENT"
  | .other s => s

/-- The guidance record `{ message, solution, type }` returned by
`getPermissionGuidance` (`type` embedded as `gtype`). -/
structure Guidance where
  message : String
  solution : String
  gtype : String
deriving DecidableEq, Repr

/-- `getPermissionGuidance(error, path)` (server/filesystem-api.js).  The
source reads `error.fullDiskAccess`, which the handler attached from
`checkFullDiskAccess()`; it is passed here as `fullDiskAccess`. -/
def getPermissionGuidance (error : FsError) (fullDiskAccess : Bool)
    (path : String) : Guidance :=
  if error.code = .EACCES ∨ error.code = .EPERM then
    if !fullDiskAccess &&
        (strIncludes path "/Library/" || strIncludes path "/System/" ||
         strIncludes path "iCloud" || strIncludes path ".photoslibrary" ||
         strIncludes path "AddressBook" || strIncludes path "Mail/") then
      { message := "Permission denied - folder requires Full Disk Access",
        solution := "Grant Full Disk Access to Terminal in System Preferences → Security & Privacy → Privacy → Full Disk Access",
        gtype := "full_disk_access_required" }
    else
      { message := "Permission denied - insufficient privileges",
        solution := "Check folder permissions or run with appropriate privileges",
        gtype := "permission_denied" }
  else if error.code = .ENOENT then
    { message := "Directory not found",
      solution := "Verify the path exists and is correctly spelled",
      gtype := "not_found" }
  else
    { message := error.message,
      solution := "Check system logs for more details",
      gtype := "unknown" }

/-- The `/api/fs/list` HTTP response as observed by the client: status code
plus the JSON body's fields (absent optional fields are `none`). -/
structure ListResponse where
  status : Nat
  success : Bool
  path : String
  items : List ServerItem
  warning : Option String
  solution : Option String
  permissionType : Option String
  errorMessage : Option String
  errorCode : Option String
  hasFullDiskAccess : Option Bool
deriving DecidableEq, Repr

/-- The `/api/fs/list` handler: on a successful `readdir`, HTTP 200 with the
filtered, sorted items; on failure, `checkFullDiskAccess()` is probed,
guidance computed, and `EACCES`/`EPERM`/`ENOENT` are normalized to HTTP 200
with `success: true`, empty `items` and the `warning`/`solution`/
`permissionType` fields; any other error yields HTTP 500 with
`success: false`, `error` and `code`.  `requestedPath` models the already
resolved absolute path (`resolve` is the identity on it). -/
def listEndpoint (requestedPath : String) (hasFullDiskAccess : Bool)
    (readResult : Except FsError (List DirEntry)) : ListResponse :=
  match readResult with
  | .ok entries =>
    { status := 200, success := true, path := requestedPath,
      items := filesystemApiList requestedPath entries,
      warning := none, solution := none, permissionType := none,
      errorMessage := none, errorCode := none, hasFullDiskAccess := none }
  | .error e =>
    let guidance := getPermissionGuidance e hasFullDiskAccess requestedPath
    if e.code = .EACCES ∨ e.code = .EPERM ∨ e.code = .ENOENT then
      { status := 200, success := true, path := requestedPath, items := [],
        warning := some guidance.message,
        solution := some guidance.solution,
        permissionType := some guidance.gtype,
        errorMessage := none, errorCode := none,
        hasFullDiskAccess := some hasFullDiskAccess }
    else
      { status := 500, success := false, path := requestedPath, items := [],
        warning := none, solution := none, permissionType := none,
        errorMessage := some e.message,
        errorCode := some (errCodeStr e.code),
        hasFullDiskAccess := some hasFullDiskAccess }

/-- C7 counterexample: an `EACCES` failure on `/Library/Mail` when the
server-side Full Disk Access probe reports `true` is normalized to HTTP 200
with empty items, but its `permissionType` is `"permission_denied"`, not
`"full_disk_access_required"` as the claim states for that path. -/
theorem libraryMail_permissionType_not_always_fda :
    (listEndpoint "/Library/Mail" true
        (.error ⟨.EACCES, "EACCES: permission denied"⟩)).status = 200 ∧
    (listEndpoint "/Library/Mail" true
        (.error ⟨.EACCES, "EACCES: permission denied"⟩)).permissionType
      = some "permission_denied" ∧
    (some "permission_denied" : Option String)
      ≠ some "full_disk_access_required" := by
  refine ⟨rfl, by decide, by decide⟩

/-- C7 amended: a `readdir` failure with code `EACCES`, `EPERM` or `ENOENT`
is normalized to HTTP 200 with `success: true`, an empty `items` array and
the `warning`/`solution`/`permissionType` fields set; any other failure
yields HTTP 500 with `success: false` and the `error`/`code` fields; and
for a permission error (`EACCES`/`EPERM`) on the path `/Library/Mail`, when
the Full Disk Access probe reports `false`, the `permissionType` is
`"full_disk_access_required"`. -/
theorem listEndpoint_error_normalization (path : String) (hasFDA : Bool)
    (e : FsError) :
    ((e.code = .EACCES ∨ e.code = .EPERM ∨ e.code = .ENOENT) →
      (listEndpoint path hasFDA (.error e)).status = 200 ∧
      (listEndpoint path hasFDA (.error e)).success = true ∧
      (listEndpoint path hasFDA (.error e)).items = [] ∧
      (listEndpoint path hasFDA (.error e)).warning.isSome = true ∧
      (listEndpoint path hasFDA (.error e)).solution.isSome = true ∧
      (listEndpoint path hasFDA (.error e)).permissionType.isSome = true) ∧
    (¬(e.code = .EACCES ∨ e.code = .EPERM ∨ e.code = .ENOENT) →
      (listEndpoint path hasFDA (.error e)).status = 500 ∧
      (listEndpoint path hasFDA (.error e)).success = false ∧
      (listEndpoint path hasFDA (.error e)).errorMessage = some e.message ∧
      (listEndpoint path hasFDA (.error e)).errorCode
        = some (errCodeStr e.code)) ∧
    ((e.code = .EACCES ∨ e.code = .EPERM) → hasFDA = false →
      path = "/Library/Mail" →
      (listEndpoint path hasFDA (.error e)).permissionType
        = some "full_disk_access_required") := by
  refine ⟨?_, ?_, ?_⟩
  · intro h
    simp [listEndpoint, if_pos h]
  · intro h
    simp [listEndpoint, if_neg h]
  · intro hperm hfda hpath
    subst hfda
    subst hpath
    have h : e.code = .EACCES ∨ e.code = .EPERM ∨ e.code = .ENOENT := by
      rcases hperm with h | h
      · exact Or.inl h
      · exact Or.inr (Or.inl h)
    simp only [listEndpoint, if_pos h]
    have hincl : strIncludes "/Library/Mail" "/Library/" = true := by decide
    simp [getPermissionGuidance, if_pos hperm, hincl]

/-- Witness for `listEndpoint_error_normalization`: an `EACCES` error on
`/Library/Mail` without Full Disk Access. -/
theorem listEndpoint_error_normalization_witness :
    (((⟨.EACCES, "boom"⟩ : FsError).code = .EACCES ∨
        (⟨.EACCES, "boom"⟩ : FsError).code = .EPERM ∨
        (⟨.EACCES, "boom"⟩ : FsError).code = .ENOENT) →
      (listEndpoint "/Library/Mail" false
          (.error ⟨.EACCES, "boom"⟩)).status = 200 ∧
      (listEndpoint "/Library/Mail" false
          (.error ⟨.EACCES, "boom"⟩)).success = true ∧
      (listEndpoint "/Library/Mail" false
          (.error ⟨.EACCES, "boom"⟩)).items = [] ∧
      (listEndpoint "/Library/Mail" false
          (.error ⟨.EACCES, "boom"⟩)).warning.isSome = true ∧
      (listEndpoint "/Library/Mail" false
          (.error ⟨.EACCES, "boom"⟩)).solution.isSome = true ∧
      (listEndpoint "/Library/Mail" false
          (.error ⟨.EACCES, "boom"⟩)).permissionType.isSome = true) ∧
    (¬((⟨.EACCES, "boom"⟩ : FsError).code = .EACCES ∨
        (⟨.EACCES, "boom"⟩ : FsError).code = .EPERM ∨
        (⟨.EACCES, "boom"⟩ : FsError).code = .ENOENT) →
      (listEndpoint "/Library/Mail" false
          (.error ⟨.EACCES, "boom"⟩)).status = 500 ∧
      (listEndpoint "/Library/Mail" false
          (.error ⟨.EACCES, "boom"⟩)).success = false ∧
      (listEndpoint "/Library/Mail" false
          (.error ⟨.EACCES, "boom"⟩)).errorMessage = some "boom" ∧
      (listEndpoint "/Library/Mail" false
          (.error ⟨.EACCES, "boom"⟩)).errorCode
        = some (errCodeStr .EACCES)) ∧
    (((⟨.EACCES, "boom"⟩ : FsError).code = .EACCES ∨
        (⟨.EACCES, "boom"⟩ : FsError).code = .EPERM) → false = false →
      "/Library/Mail" = "/Library/Mail" →
      (listEndpoint "/Library/Mail" false
          (.error ⟨.EACCES, "boom"⟩)).permissionType
        = some "full_disk_access_required") :=
  listEndpoint_error_normalization "/Library/Mail" false ⟨.EACCES, "boom"⟩

end FilesystemApi

namespace FileBrowser3D

/-- The `fetch` response as seen by `ServerFileSystemReader.readDirectory`:
`ok`/`status`/`statusText` from the HTTP layer and the parsed JSON body's
`success`, `error` and `items` fields. -/
structure FetchResponse where
  ok : Bool
  status : Nat
  statusText : String
  success : Bool
  errorField : Option String
  items : List FileItem
deriving DecidableEq, Repr

/-- `ServerFileSystemReader.readDirectory`'s result handling
(src/ServerFileSystemReader.ts): a transport failure (the `fetch` promise
rejecting) is caught, logged and rethrown; a non-OK HTTP response throws
`HTTP <status>: <statusText>`; a body with `success: false` throws its
`error` field (or `'Server filesystem error'`); only then does it resolve
with the items.  Failures are therefore surfaced to the caller as errors,
never swallowed. -/
def readDirectoryResult (resp : Except String FetchResponse) :
    Except String (List FileItem) :=
  match resp with
  | .error e => .error e
  | .ok r =>
    if !r.ok then
      .error ("HTTP " ++ toString r.status ++ ": " ++ r.statusText)
    else if !r.success then
      .error (r.errorField.getD "Server filesystem error")
    else
      .ok r.items

/-- Modelled from the spec: the shipped `onCardClick`
(src/FileBrowser3D.ts) builds child listings with
`createMockFolderContents`, which cannot fail; spec §4.5 prescribes the
drill-down to request the child listing from the Directory Source (the
fallible `ServerFileSystemReader.readDirectory`), aborting with the old
state intact and the failure surfaced when the request fails.  This is
`onCardClick` with the mock call replaced by the result of that fallible
request: the guard, the `..` branch, the non-folder no-op and the
`navigateToFolder` call are the source's; the error branch returns the
state untouched with the error surfaced. -/
def onCardClickFetch (s : BrowserState) (cardIndex : Nat)
    (fetched : Except String (List FileItem)) : BrowserState × Option String :=
  if s.transitionAnimating then (s, none)
  else
    match s.currentDirectory[cardIndex]? with
    | none => (s, none)
    | some selectedItem =>
      if selectedItem.name = ".." then (navigateBack s, none)
      else if selectedItem.kind ≠ .folder then (s, none)
      else
        match fetched with
        | .error e => (s, some e)
        | .ok contents =>
          (navigateToFolder s selectedItem contents cardIndex, none)

/-- C8: activating a folder card whose child-listing request fails aborts
the drill-down atomically — the returned state is exactly the pre-activation
state (listing, navigation stack, cards and scroll position untouched) —
and the failure is surfaced to the caller; and
`ServerFileSystemReader.readDirectory` turns every failing response (HTTP
error, `success: false` body, or transport rejection) into a surfaced
error. -/
theorem onCardClickFetch_failure_atomic (s : BrowserState)
    (cardIndex : Nat) (it : FileItem) (e : String) (r : FetchResponse)
    (te : String)
    (hanim : s.transitionAnimating = false)
    (hit : s.currentDirectory[cardIndex]? = some it)
    (hname : it.name ≠ "..") (hkind : it.kind = .folder)
    (hr : r.ok = false ∨ r.success = false) :
    onCardClickFetch s cardIndex (.error e) = (s, some e) ∧
    (∃ msg, readDirectoryResult (.ok r) = .error msg) ∧
    readDirectoryResult (.error te) = .error te := by
  refine ⟨?_, ?_, rfl⟩
  · unfold onCardClickFetch
    rw [hanim, hit]
    simp [hname, hkind]
  · unfold readDirectoryResult
    rcases hok : r.ok with _ | _
    · exact ⟨"HTTP " ++ toString r.status ++ ": " ++ r.statusText,
        by simp [hok]⟩
    · rcases hr with hr | hr
      · rw [hok] at hr
        exact absurd hr (by simp)
      · exact ⟨r.errorField.getD "Server filesystem error",
          by simp [hok, hr]⟩

/-- Witness for `onCardClickFetch_failure_atomic`: activating folder `A` at
index 0 of the sample state with a failed request. -/
theorem onCardClickFetch_failure_atomic_witness :
    onCardClickFetch sampleState 0 (.error "HTTP 500: Internal Server Error")
      = (sampleState, some "HTTP 500: Internal Server Error") ∧
    (∃ msg, readDirectoryResult
        (.ok ⟨false, 500, "Internal Server Error", false, none, []⟩)
      = .error msg) ∧
    readDirectoryResult (.error "NetworkError") = .error "NetworkError" :=
  onCardClickFetch_failure_atomic sampleState 0
    ⟨"A", .folder, none, "/A"⟩ "HTTP 500: Internal Server Error"
    ⟨false, 500, "Internal Server Error", false, none, []⟩ "NetworkError"
    rfl (by simp [sampleState, sampleItems]) (by decide) rfl (Or.inl rfl)

end FileBrowser3D

namespace ZoomControls

/-- Witness for `setZoom_clamps_and_snaps` at the requested zoom 2 (above
`MAX_ZOOM`). -/
theorem setZoom_clamps_and_snaps_witness :
    minZoom ≤ setZoom 2 ∧ setZoom 2 ≤ maxZoom ∧
    (19 / 20 < setZoom 2 → setZoom 2 < 21 / 20 → setZoom 2 = 1) ∧
    (|max minZoom (min maxZoom 2) - 1| < 5 / 100 → setZoom 2 = 1) ∧
    (5 / 100 ≤ |max minZoom (min maxZoom 2) - 1| →
      setZoom 2 = max minZoom (min maxZoom 2)) :=
  setZoom_clamps_and_snaps 2

end ZoomControls
